import Mathlib

/-!
Shallow embedding of the chart-geometry and document-assembly pipeline of
`src/rapor/report_with_api.py` (GOK4Y/raporlama), together with a model of the
validation logic of the `/generate-report` endpoint.

Numeric values are modelled as rationals: Python `int(x)` truncation is
`pyInt`, and Python `round(x, 2)` (round-half-to-even) is `round2`.
The SVG strings produced by the two chart renderers are abstracted into
structures recording every input-dependent quantity appearing in the markup
(geometry, colors, label positions, label signs); constant markup text
(title, wrapper, axis line) carries no input dependence and is omitted.
-/

namespace Rapor

/-- Python `int(q)` on our rational model: truncation toward zero. -/
def pyInt (q : ℚ) : ℤ := if 0 ≤ q then ⌊q⌋ else ⌈q⌉

/-- Python `max(...)` over a list; the source only applies it to nonempty
lists, so the `[]` case is unreachable there. -/
def pyMax : List ℚ → ℚ
  | [] => 0
  | x :: xs => xs.foldl max x

/-- Round half to even to an integer, as Python `round(q)`. -/
def roundHalfEven (q : ℚ) : ℤ :=
  if q - ⌊q⌋ < 1/2 then ⌊q⌋
  else if 1/2 < q - ⌊q⌋ then ⌊q⌋ + 1
  else if ⌊q⌋ % 2 = 0 then ⌊q⌋ else ⌊q⌋ + 1

/-- Python `round(q, 2)`. -/
def round2 (q : ℚ) : ℚ := (roundHalfEven (q * 100) : ℚ) / 100

/-- A Python dict of numeric values, as the renderers receive it
(`emotion_data`): key lookup returns `none` when the key is absent. -/
def EmotionDict : Type := String → Option ℚ

/-- `labels_map.get(key, "Bilinmeyen")`, shared by both renderers. -/
def labels_map (k : String) : String :=
  if k = "duygu_mutlu_%" then "Mutlu"
  else if k = "duygu_kizgin_%" then "Kızgın"
  else if k = "duygu_igrenme_%" then "İğrenme"
  else if k = "duygu_korku_%" then "Korku"
  else if k = "duygu_uzgun_%" then "Üzgün"
  else if k = "duygu_saskin_%" then "Şaşkın"
  else if k = "duygu_dogal_%" then "Doğal"
  else "Bilinmeyen"

/-- The fixed label→color table `colors`, shared by both renderers. -/
def colorsTable (name : String) : Option String :=
  if name = "Mutlu" then some "#d4eac8"
  else if name = "Kızgın" then some "#e5b9b5"
  else if name = "İğrenme" then some "#d3cdd7"
  else if name = "Korku" then some "#a9b4c2"
  else if name = "Üzgün" then some "#b7d0e2"
  else if name = "Şaşkın" then some "#fdeac9"
  else if name = "Doğal" then some "#d8d8d8"
  else none

/-- `emotion_keys_ordered` (identical to `emotion_keys` of the second
renderer): the canonical key order. -/
def emotion_keys_ordered : List String :=
  ["duygu_mutlu_%", "duygu_kizgin_%", "duygu_igrenme_%", "duygu_korku_%",
   "duygu_uzgun_%", "duygu_saskin_%", "duygu_dogal_%"]

/-- `zip(emotion_keys, avg_keys)` from `create_emotion_charts_html_2`. -/
def diff_pairs : List (String × String) :=
  [("duygu_mutlu_%", "avg_duygu_mutlu_%"),
   ("duygu_kizgin_%", "avg_duygu_kizgin_%"),
   ("duygu_igrenme_%", "avg_duygu_igrenme_%"),
   ("duygu_korku_%", "avg_duygu_korku_%"),
   ("duygu_uzgun_%", "avg_duygu_uzgun_%"),
   ("duygu_saskin_%", "avg_duygu_saskin_%"),
   ("duygu_dogal_%", "avg_duygu_dogal_%")]

/-- The canonical keys present in the dict: the `if key in emotion_data`
filter of the loop at lines 101-105. -/
def present_keys (d : EmotionDict) : List String :=
  emotion_keys_ordered.filter (fun k => (d k).isSome)

/-- The `emotion_values` list of `create_emotion_charts_html`: for each
present key, its label and its value (`emotion_data.get(key, 0)`). -/
def emotion_values (d : EmotionDict) : List (String × ℚ) :=
  (present_keys d).map (fun k => (labels_map k, (d k).getD 0))

/-- `max_value` after the `< 5` floor (lines 112-114). -/
def abs_max_value (d : EmotionDict) : ℚ :=
  if pyMax ((emotion_values d).map Prod.snd) < 5 then 5
  else pyMax ((emotion_values d).map Prod.snd)

/-- `svg_height = int((max_value / 100) * base_height) + 80` (line 115). -/
def abs_svg_height (d : EmotionDict) : ℤ :=
  pyInt (abs_max_value d / 100 * 250) + 80

/-- `bar_width` with its `<= 0` clamp to 20 (lines 123-125). -/
def abs_bar_width (n : ℕ) : ℚ :=
  if (600 - 2 * 40 - ((n : ℚ) - 1) * 15) / (n : ℚ) ≤ 0 then 20
  else (600 - 2 * 40 - ((n : ℚ) - 1) * 15) / (n : ℚ)

/-- One rect-plus-labels group of the absolute chart (loop, lines 152-175). -/
structure AbsBar where
  name : String
  value : ℚ
  x : ℚ
  y : ℚ
  width : ℚ
  height : ℚ
  textY : ℚ
  color : String
  nameLabelY : ℚ
deriving DecidableEq

/-- The bar at loop index `i` for entry `p = (name, value)`, given
`bar_width`, `max_value` and `svg_height`. -/
def mkAbsBar (bw mv sh : ℚ) (i : ℕ) (p : String × ℚ) : AbsBar :=
  { name := p.1
    value := p.2
    x := 40 + (i : ℚ) * (bw + 15)
    y := sh - 40 - p.2 / mv * (sh - 2 * 40)
    width := bw
    height := p.2 / mv * (sh - 2 * 40)
    textY :=
      if sh - 40 - p.2 / mv * (sh - 2 * 40) - 5 < 15 then
        sh - 40 - p.2 / mv * (sh - 2 * 40) + 15
      else sh - 40 - p.2 / mv * (sh - 2 * 40) - 5
    color := (colorsTable p.1).getD "#cccccc"
    nameLabelY := sh - 40 + 20 }

/-- `for i, emotion in enumerate(emotion_values)` starting at index `i`. -/
def absBarsFrom (bw mv sh : ℚ) : ℕ → List (String × ℚ) → List AbsBar
  | _, [] => []
  | i, p :: rest => mkAbsBar bw mv sh i p :: absBarsFrom bw mv sh (i + 1) rest

/-- All bars of the absolute chart for dict `d`. -/
def absBars (d : EmotionDict) : List AbsBar :=
  absBarsFrom (abs_bar_width (emotion_values d).length) (abs_max_value d)
    ((abs_svg_height d : ℚ)) 0 (emotion_values d)

/-- The five y-axis gridline positions of the absolute chart (lines
140-150), at 0/25/50/75/100 percent scaled by `max_value`. -/
def absGridlines (d : EmotionDict) : List ℚ :=
  (List.range 5).map (fun i =>
    ((abs_svg_height d : ℚ)) - 40 -
      ((i : ℚ) * 25 / abs_max_value d * (((abs_svg_height d : ℚ)) - 2 * 40)))

/-- The input-dependent content of the absolute chart's SVG markup. -/
structure AbsChartData where
  maxValue : ℚ
  svgHeight : ℤ
  barWidth : ℚ
  gridlineYs : List ℚ
  bars : List AbsBar
deriving DecidableEq

def absChartData (d : EmotionDict) : AbsChartData :=
  { maxValue := abs_max_value d
    svgHeight := abs_svg_height d
    barWidth := abs_bar_width (emotion_values d).length
    gridlineYs := absGridlines d
    bars := absBars d }

/-- Result of `create_emotion_charts_html`: either the "no data" paragraph
or the SVG chart. -/
inductive AbsOut where
  | placeholder (msg : String)
  | svg (data : AbsChartData)
deriving DecidableEq

/-- `create_emotion_charts_html` (lines 60-184). -/
def create_emotion_charts_html (d : EmotionDict) : AbsOut :=
  if emotion_values d = [] then
    AbsOut.placeholder "Görselleştirilecek duygu verisi bulunamadı."
  else AbsOut.svg (absChartData d)

/-- The `diffs` list (lines 235-241): `round(val - avg, 2)` per canonical
key, with both `val` and `avg` defaulting to 0 when absent. -/
def diffs (d : EmotionDict) : List (String × ℚ) :=
  diff_pairs.map
    (fun p => (labels_map p.1, round2 ((d p.1).getD 0 - (d p.2).getD 0)))

/-- `max_abs` with its `< 5` floor (lines 247-249). -/
def max_abs (d : EmotionDict) : ℚ :=
  if pyMax ((diffs d).map (fun p => |p.2|)) < 5 then 5
  else pyMax ((diffs d).map (fun p => |p.2|))

/-- `panel = (max_abs / 100) * base_height` (line 254). -/
def diff_panel (d : EmotionDict) : ℚ := max_abs d / 100 * 250

/-- `svg_height = int(panel * 2 + padding * 2)` (line 255). -/
def diff_svg_height (d : EmotionDict) : ℤ := pyInt (diff_panel d * 2 + 40 * 2)

/-- `baseline_y = padding + panel` (line 262). -/
def diff_baseline (d : EmotionDict) : ℚ := 40 + diff_panel d

/-- `bar_width` of the differential chart (line 259; no clamp here). -/
def diff_bar_width (n : ℕ) : ℚ :=
  (600 - 2 * 40 - ((n : ℚ) - 1) * 15) / (n : ℚ)

/-- One bar group of the differential chart (loop, lines 293-318). -/
structure DiffBar where
  name : String
  value : ℚ
  x : ℚ
  y : ℚ
  width : ℚ
  height : ℚ
  txtY : ℚ
  sign : String
  color : String
  nameLabelY : ℚ
deriving DecidableEq

/-- The differential-chart bar at loop index `i` for `p = (name, diff)`.
The `sign` field records the sign the `{val:+.1f}` format prints. -/
def mkDiffBar (bw mabs panel baseline : ℚ) (i : ℕ) (p : String × ℚ) : DiffBar :=
  { name := p.1
    value := p.2
    x := 40 + (i : ℚ) * (bw + 15)
    y := if 0 ≤ p.2 then baseline - |p.2| / mabs * panel else baseline
    width := bw
    height := |p.2| / mabs * panel
    txtY :=
      if 0 ≤ p.2 then baseline - |p.2| / mabs * panel - 5
      else baseline + |p.2| / mabs * panel + 15
    sign := if 0 ≤ p.2 then "+" else "-"
    color := (colorsTable p.1).getD "#ccc"
    nameLabelY := baseline + panel + 20 }

/-- `for i, item in enumerate(diffs)` starting at index `i`. -/
def diffBarsFrom (bw mabs panel baseline : ℚ) :
    ℕ → List (String × ℚ) → List DiffBar
  | _, [] => []
  | i, p :: rest => mkDiffBar bw mabs panel baseline i p ::
      diffBarsFrom bw mabs panel baseline (i + 1) rest

/-- All bars of the differential chart for dict `d`. -/
def diffBars (d : EmotionDict) : List DiffBar :=
  diffBarsFrom (diff_bar_width (diffs d).length) (max_abs d) (diff_panel d)
    (diff_baseline d) 0 (diffs d)

/-- Gridlines of the differential chart, drawn for
`perc in [-max_abs, 0, max_abs]` (lines 278-290): `(perc, y-position)`. -/
def diffGridlines (d : EmotionDict) : List (ℚ × ℚ) :=
  [-(max_abs d), 0, max_abs d].map
    (fun perc => (perc, diff_baseline d - perc / max_abs d * diff_panel d))

/-- The input-dependent content of the differential chart's SVG markup. -/
structure DiffChartData where
  maxAbs : ℚ
  panel : ℚ
  svgHeight : ℤ
  baselineY : ℚ
  barWidth : ℚ
  gridlines : List (ℚ × ℚ)
  bars : List DiffBar
deriving DecidableEq

def diffChartData (d : EmotionDict) : DiffChartData :=
  { maxAbs := max_abs d
    panel := diff_panel d
    svgHeight := diff_svg_height d
    baselineY := diff_baseline d
    barWidth := diff_bar_width (diffs d).length
    gridlines := diffGridlines d
    bars := diffBars d }

/-- Result of `create_emotion_charts_html_2`. -/
inductive DiffOut where
  | placeholder (msg : String)
  | svg (data : DiffChartData)
deriving DecidableEq

/-- `create_emotion_charts_html_2` (lines 188-328). -/
def create_emotion_charts_html_2 (d : EmotionDict) : DiffOut :=
  if diffs d = [] then
    DiffOut.placeholder "Görselleştirilecek duygu verisi bulunamadı."
  else DiffOut.svg (diffChartData d)

/-! ### Document tree model (the BeautifulSoup operations of `generate_report`)

The parsed HTML document is modelled as a tree whose nodes are either text
(NavigableString) or elements with an optional `id` attribute and a child
list. The child list is a mutually-defined type so that mutual structural
recursion and induction are available. -/

mutual
inductive Node where
  | text (s : String) : Node
  | elem (id : Option String) (children : NodeList) : Node
inductive NodeList where
  | nil : NodeList
  | cons (head : Node) (tail : NodeList) : NodeList
end

mutual
/-- `soup.find(id=t)` succeeds: some descendant-or-self element has id `t`. -/
def hasId : Node → String → Bool
  | .text _, _ => false
  | .elem i cs, t => (i == some t) || hasIdList cs t
def hasIdList : NodeList → String → Bool
  | .nil, _ => false
  | .cons c rest, t => hasId c t || hasIdList rest t
end

mutual
/-- `tag.clear(); tag.append(newCs)` applied to the first element (document
order) whose id is `t`: replace that element's children by `newCs`. -/
def setChildrenById : Node → String → NodeList → Node
  | .text s, _, _ => .text s
  | .elem i cs, t, newCs =>
    if i == some t then .elem i newCs
    else .elem i (setChildrenByIdList cs t newCs)
def setChildrenByIdList : NodeList → String → NodeList → NodeList
  | .nil, _, _ => .nil
  | .cons c rest, t, newCs =>
    if hasId c t then .cons (setChildrenById c t newCs) rest
    else .cons c (setChildrenByIdList rest t newCs)
end

mutual
/-- The children of the first element (document order) whose id is `t`. -/
def getChildrenById : Node → String → Option NodeList
  | .text _, _ => none
  | .elem i cs, t =>
    if i == some t then some cs else getChildrenByIdList cs t
def getChildrenByIdList : NodeList → String → Option NodeList
  | .nil, _ => none
  | .cons c rest, t =>
    match getChildrenById c t with
    | some r => some r
    | none => getChildrenByIdList rest t
end

mutual
/-- Number of descendant text nodes equal to `tok` (`soup.find(text=tok)`
searches the descendants of the document root). -/
def countText : Node → String → ℕ
  | .text _, _ => 0
  | .elem _ cs, tok => countTextList cs tok
def countTextList : NodeList → String → ℕ
  | .nil, _ => 0
  | .cons (.text s) rest, tok =>
    (if s == tok then 1 else 0) + countTextList rest tok
  | .cons (.elem _ cs) rest, tok =>
    countTextList cs tok + countTextList rest tok
end

mutual
/-- `soup.find(text=tok)` followed by `.extract()`: remove the first
descendant text node (document order) equal to `tok`; the Bool reports
whether one was found. -/
def removeTextNode : Node → String → Node × Bool
  | .text s, _ => (.text s, false)
  | .elem i cs, tok =>
    ((.elem i (removeTextList cs tok).1 : Node), (removeTextList cs tok).2)
def removeTextList : NodeList → String → NodeList × Bool
  | .nil, _ => (.nil, false)
  | .cons (.text s) rest, tok =>
    if s == tok then (rest, true)
    else (.cons (.text s) (removeTextList rest tok).1,
          (removeTextList rest tok).2)
  | .cons (.elem i cs) rest, tok =>
    if (removeTextNode (.elem i cs) tok).2 then
      (.cons (removeTextNode (.elem i cs) tok).1 rest, true)
    else (.cons (.elem i cs) (removeTextList rest tok).1,
          (removeTextList rest tok).2)
end

/-- The chart insertion point id of the template (line 574 / line 777). -/
def barChartPlaceholderId : String := "bar-chart-placeholder"

/-- The literal suitability-section placeholder token (line 810). -/
def suitabilityToken : String := "\x7b\x7buygunluk_degerlendirmesi_bolumu\x7d\x7d"

/-- Chart insertion step of `generate_report` (lines 777-787): when the
placeholder element exists, its previous content is replaced by the parsed
absolute-chart fragment followed by the parsed differential-chart fragment
(passed here as the opaque nodes `absFrag`, `diffFrag`); otherwise the
document is left unchanged. -/
def insertCharts (doc absFrag diffFrag : Node) : Node :=
  if hasId doc barChartPlaceholderId then
    setChildrenById doc barChartPlaceholderId
      (.cons absFrag (.cons diffFrag .nil))
  else doc

/-- Suitability-section step of `generate_report` (lines 808-812): for
classification flag (`tip`) 1 the first occurrence of the literal
placeholder token is extracted; any other flag leaves the document alone. -/
def suitStep (tip : ℤ) (doc : Node) : Node :=
  if tip = 1 then (removeTextNode doc suitabilityToken).1 else doc

/-! ### Endpoint validation model (`generate_report`, lines 689-844)

Downstream steps (LLM call, chart insertion, PDF rendering) are abstracted
as succeeding; the model captures the file-type check, the required-column
check, the empty check, and the fact that `row[col]` on a column absent
from the CSV raises a `KeyError` that the blanket `except Exception`
(line 839) converts into the generic HTTP 500 internal error. -/

/-- `required_columns` as validated at lines 702-724. -/
def required_columns : List String :=
  ["kisi_adi", "mulakat_adi", "llm_skoru",
   "duygu_mutlu_%", "duygu_kizgin_%", "duygu_igrenme_%", "duygu_korku_%",
   "duygu_uzgun_%", "duygu_saskin_%", "duygu_dogal_%",
   "ekran_disi_sure_sn", "ekran_disi_sayisi", "soru", "cevap", "tip"]

/-- The columns `generate_report` actually reads from the row when building
`current_row_data` (lines 731-756). -/
def accessed_columns : List String :=
  ["kisi_adi", "mulakat_adi", "llm_skoru",
   "duygu_mutlu_%", "avg_duygu_mutlu_%",
   "duygu_kizgin_%", "avg_duygu_kizgin_%",
   "duygu_igrenme_%", "avg_duygu_igrenme_%",
   "duygu_korku_%", "avg_duygu_korku_%",
   "duygu_uzgun_%", "avg_duygu_uzgun_%",
   "duygu_saskin_%", "avg_duygu_saskin_%",
   "duygu_dogal_%", "avg_duygu_dogal_%",
   "ekran_disi_sure_sn", "avg_ekran_disi_sure_sn",
   "ekran_disi_sayisi", "avg_ekran_disi_sayisi",
   "soru", "cevap", "tip", "avg_llm_skoru"]

/-- The user-visible outcome classes of the endpoint. -/
inductive ApiOutcome where
  | badFileFormat
  | missingColumns (missing : List String)
  | emptyCsv
  | internalError
  | success
deriving DecidableEq

/-- Outcome of `generate_report` for an upload whose filename ends in
`.csv` iff `isCsv`, whose parsed CSV has column set `cols` and `nRows`
data rows. -/
def generate_report_model (isCsv : Bool) (cols : List String)
    (nRows : ℕ) : ApiOutcome :=
  if isCsv = false then .badFileFormat
  else if required_columns.all (fun c => cols.contains c) = false then
    .missingColumns (required_columns.filter (fun c => ¬ cols.contains c))
  else if nRows = 0 then .emptyCsv
  else if accessed_columns.all (fun c => cols.contains c) = false then
    .internalError
  else .success

/-! ### Concrete sample inputs -/

/-- All seven emotion keys present with value 0, no average keys. -/
def allZeroDict : EmotionDict :=
  fun k => if emotion_keys_ordered.contains k then some 0 else none

/-- The empty dict: no keys at all. -/
def allNoneDict : EmotionDict := fun _ => none

/-- All seven emotion keys present with value 2 (all below 5). -/
def lowDict : EmotionDict :=
  fun k => if emotion_keys_ordered.contains k then some 2 else none

/-- Emotion values 40, average values 30. -/
def fullDict : EmotionDict :=
  fun k =>
    if emotion_keys_ordered.contains k then some 40
    else if (diff_pairs.map Prod.snd).contains k then some 30 else none

/-- Emotion values and averages both 20 (value = average everywhere). -/
def equalDict : EmotionDict :=
  fun k =>
    if emotion_keys_ordered.contains k then some 20
    else if (diff_pairs.map Prod.snd).contains k then some 20 else none

/-- A sample parsed document: a root element containing the chart
placeholder element (with stale content) and the suitability token. -/
def sampleDoc : Node :=
  .elem (some "html")
    (.cons (.elem (some "bar-chart-placeholder") (.cons (.text "old") .nil))
      (.cons (.text suitabilityToken) .nil))

/-- A sample document with no chart placeholder and no suitability token. -/
def plainDoc : Node :=
  .elem (some "html") (.cons (.text "body") .nil)

/-! ### Helper lemmas -/

theorem floor_five_eq_max (m : ℚ) : (if m < 5 then 5 else m) = max 5 m := by
  split
  · exact (max_eq_left (le_of_lt (by assumption))).symm
  · exact (max_eq_right (not_lt.mp (by assumption))).symm

theorem foldl_max_lt {c : ℚ} :
    ∀ (xs : List ℚ) (a : ℚ), a < c → (∀ v ∈ xs, v < c) → xs.foldl max a < c
  | [], _, ha, _ => ha
  | x :: xs, a, ha, hxs =>
    foldl_max_lt xs (max a x) (max_lt ha (hxs x (List.mem_cons_self x xs)))
      (fun v hv => hxs v (List.mem_cons_of_mem x hv))

theorem pyMax_lt {c : ℚ} {l : List ℚ} (hne : l ≠ []) (h : ∀ v ∈ l, v < c) :
    pyMax l < c := by
  cases l with
  | nil => exact absurd rfl hne
  | cons x xs =>
      exact foldl_max_lt xs x (h x (List.mem_cons_self x xs))
        (fun v hv => h v (List.mem_cons_of_mem x hv))

theorem abs_bar_width_pos (n : ℕ) : 0 < abs_bar_width n := by
  unfold abs_bar_width
  split
  · norm_num
  · exact lt_of_not_le (by assumption)

theorem max_abs_ge_five (d : EmotionDict) : 5 ≤ max_abs d := by
  unfold max_abs
  split
  · norm_num
  · exact not_lt.mp (by assumption)

theorem roundHalfEven_zero : roundHalfEven 0 = 0 := by
  norm_num [roundHalfEven]

theorem round2_zero : round2 0 = 0 := by
  norm_num [round2, roundHalfEven_zero]

theorem absBarsFrom_length (bw mv sh : ℚ) :
    ∀ (i : ℕ) (l : List (String × ℚ)),
      (absBarsFrom bw mv sh i l).length = l.length := by
  intro i l
  induction l generalizing i with
  | nil => rfl
  | cons p rest ih => simp [absBarsFrom, ih]

theorem mem_absBarsFrom {bw mv sh : ℚ} {b : AbsBar} :
    ∀ {i : ℕ} {l : List (String × ℚ)}, b ∈ absBarsFrom bw mv sh i l →
      ∃ j p, p ∈ l ∧ b = mkAbsBar bw mv sh j p := by
  intro i l
  induction l generalizing i with
  | nil => intro h; simp [absBarsFrom] at h
  | cons p rest ih =>
      intro h
      rcases List.mem_cons.mp (by simpa [absBarsFrom] using h) with h1 | h2
      · exact ⟨i, p, List.mem_cons_self p rest, h1⟩
      · obtain ⟨j, q, hq, hb⟩ := ih h2
        exact ⟨j, q, List.mem_cons_of_mem p hq, hb⟩

theorem absBarsFrom_map_name (bw mv sh : ℚ) :
    ∀ (i : ℕ) (l : List (String × ℚ)),
      (absBarsFrom bw mv sh i l).map AbsBar.name = l.map Prod.fst := by
  intro i l
  induction l generalizing i with
  | nil => rfl
  | cons p rest ih => simp [absBarsFrom, mkAbsBar, ih]

theorem le_x_of_mem_absBarsFrom (bw mv sh : ℚ) (hbw : 0 ≤ bw + 15) :
    ∀ (i : ℕ) (l : List (String × ℚ)) (b : AbsBar),
      b ∈ absBarsFrom bw mv sh i l → 40 + (i : ℚ) * (bw + 15) ≤ b.x := by
  intro i l
  induction l generalizing i with
  | nil => intro b h; simp [absBarsFrom] at h
  | cons p rest ih =>
      intro b h
      rcases List.mem_cons.mp (by simpa [absBarsFrom] using h) with h1 | h2
      · subst h1; simp [mkAbsBar]
      · have h3 := ih (i + 1) b h2
        push_cast at h3
        nlinarith

theorem pairwise_x_absBarsFrom (bw mv sh : ℚ) (hbw : 0 < bw + 15) :
    ∀ (i : ℕ) (l : List (String × ℚ)),
      List.Pairwise (fun a b => a.x < b.x) (absBarsFrom bw mv sh i l) := by
  intro i l
  induction l generalizing i with
  | nil => exact List.Pairwise.nil
  | cons p rest ih =>
      simp only [absBarsFrom]
      refine List.Pairwise.cons ?_ (ih (i + 1))
      intro b hb
      have h3 := le_x_of_mem_absBarsFrom bw mv sh (le_of_lt hbw) (i + 1) rest b hb
      have hx : (mkAbsBar bw mv sh i p).x = 40 + (i : ℚ) * (bw + 15) := by
        simp [mkAbsBar]
      rw [hx]
      push_cast at h3
      nlinarith

theorem diffBarsFrom_length (bw mabs panel baseline : ℚ) :
    ∀ (i : ℕ) (l : List (String × ℚ)),
      (diffBarsFrom bw mabs panel baseline i l).length = l.length := by
  intro i l
  induction l generalizing i with
  | nil => rfl
  | cons p rest ih => simp [diffBarsFrom, ih]

theorem mem_diffBarsFrom {bw mabs panel baseline : ℚ} {b : DiffBar} :
    ∀ {i : ℕ} {l : List (String × ℚ)},
      b ∈ diffBarsFrom bw mabs panel baseline i l →
      ∃ j p, p ∈ l ∧ b = mkDiffBar bw mabs panel baseline j p := by
  intro i l
  induction l generalizing i with
  | nil => intro h; simp [diffBarsFrom] at h
  | cons p rest ih =>
      intro h
      rcases List.mem_cons.mp (by simpa [diffBarsFrom] using h) with h1 | h2
      · exact ⟨i, p, List.mem_cons_self p rest, h1⟩
      · obtain ⟨j, q, hq, hb⟩ := ih h2
        exact ⟨j, q, List.mem_cons_of_mem p hq, hb⟩

theorem countText_elem (i : Option String) (cs : NodeList) (tok : String) :
    countText (.elem i cs) tok = countTextList cs tok := rfl

theorem countTextList_cons_text (s : String) (rest : NodeList) (tok : String) :
    countTextList (.cons (.text s) rest) tok
      = (if s == tok then 1 else 0) + countTextList rest tok := rfl

theorem countTextList_cons_elem (i : Option String) (cs rest : NodeList)
    (tok : String) :
    countTextList (.cons (.elem i cs) rest) tok
      = countTextList cs tok + countTextList rest tok := rfl

theorem removeTextNode_elem (i : Option String) (cs : NodeList) (tok : String) :
    removeTextNode (.elem i cs) tok
      = (.elem i (removeTextList cs tok).1, (removeTextList cs tok).2) := rfl

theorem removeTextList_cons_text (s : String) (rest : NodeList) (tok : String) :
    removeTextList (.cons (.text s) rest) tok
      = if s == tok then (rest, true)
        else (.cons (.text s) (removeTextList rest tok).1,
              (removeTextList rest tok).2) := rfl

theorem removeTextList_cons_elem (i : Option String) (cs rest : NodeList)
    (tok : String) :
    removeTextList (.cons (.elem i cs) rest) tok
      = if (removeTextNode (.elem i cs) tok).2 then
          (.cons (removeTextNode (.elem i cs) tok).1 rest, true)
        else (.cons (.elem i cs) (removeTextList rest tok).1,
              (removeTextList rest tok).2) := rfl

theorem absChartData_bars (d : EmotionDict) :
    (absChartData d).bars
      = absBarsFrom (abs_bar_width (emotion_values d).length) (abs_max_value d)
          ((abs_svg_height d : ℚ)) 0 (emotion_values d) := rfl

theorem diffChartData_bars (d : EmotionDict) :
    (diffChartData d).bars
      = diffBarsFrom (diff_bar_width (diffs d).length) (max_abs d)
          (diff_panel d) (diff_baseline d) 0 (diffs d) := rfl

mutual
theorem getChildrenById_eq_none (n : Node) (t : String)
    (h : hasId n t = false) : getChildrenById n t = none := by
  cases n with
  | text s => rfl
  | elem i cs =>
      unfold hasId at h
      rw [Bool.or_eq_false_iff] at h
      unfold getChildrenById
      rw [if_neg (by simp [h.1])]
      exact getChildrenByIdList_eq_none cs t h.2
theorem getChildrenByIdList_eq_none (l : NodeList) (t : String)
    (h : hasIdList l t = false) : getChildrenByIdList l t = none := by
  cases l with
  | nil => rfl
  | cons c rest =>
      unfold hasIdList at h
      rw [Bool.or_eq_false_iff] at h
      unfold getChildrenByIdList
      rw [getChildrenById_eq_none c t h.1]
      exact getChildrenByIdList_eq_none rest t h.2
end

mutual
theorem getChildrenById_setChildrenById (n : Node) (t : String) (cs : NodeList)
    (h : hasId n t = true) :
    getChildrenById (setChildrenById n t cs) t = some cs := by
  cases n with
  | text s => simp [hasId] at h
  | elem i cs0 =>
      unfold setChildrenById
      by_cases hi : (i == some t) = true
      · rw [if_pos hi]
        unfold getChildrenById
        rw [if_pos hi]
      · rw [if_neg hi]
        unfold getChildrenById
        rw [if_neg hi]
        apply getChildrenByIdList_setChildrenByIdList
        unfold hasId at h
        simp only [Bool.not_eq_true] at hi
        rwa [hi, Bool.false_or] at h
theorem getChildrenByIdList_setChildrenByIdList (l : NodeList) (t : String)
    (cs : NodeList) (h : hasIdList l t = true) :
    getChildrenByIdList (setChildrenByIdList l t cs) t = some cs := by
  cases l with
  | nil => simp [hasIdList] at h
  | cons c rest =>
      unfold setChildrenByIdList
      by_cases hc : hasId c t = true
      · rw [if_pos hc]
        unfold getChildrenByIdList
        rw [getChildrenById_setChildrenById c t cs hc]
      · rw [if_neg hc]
        simp only [Bool.not_eq_true] at hc
        unfold getChildrenByIdList
        rw [getChildrenById_eq_none c t hc]
        apply getChildrenByIdList_setChildrenByIdList
        unfold hasIdList at h
        rwa [hc, Bool.false_or] at h
end

mutual
theorem removeTextNode_spec (n : Node) (tok : String) :
    ((removeTextNode n tok).2 = false →
      (removeTextNode n tok).1 = n ∧ countText n tok = 0) ∧
    ((removeTextNode n tok).2 = true →
      countText (removeTextNode n tok).1 tok + 1 = countText n tok) := by
  cases n with
  | text s =>
      exact ⟨fun _ => ⟨rfl, rfl⟩, fun h => by simp [removeTextNode] at h⟩
  | elem i cs =>
      have hl := removeTextList_spec cs tok
      constructor
      · intro h
        obtain ⟨h1, h2⟩ := hl.1 h
        refine ⟨?_, h2⟩
        show Node.elem i (removeTextList cs tok).1 = Node.elem i cs
        rw [h1]
      · intro h
        have h2 := hl.2 h
        show countTextList (removeTextList cs tok).1 tok + 1 = countTextList cs tok
        exact h2
theorem removeTextList_spec (l : NodeList) (tok : String) :
    ((removeTextList l tok).2 = false →
      (removeTextList l tok).1 = l ∧ countTextList l tok = 0) ∧
    ((removeTextList l tok).2 = true →
      countTextList (removeTextList l tok).1 tok + 1 = countTextList l tok) := by
  cases l with
  | nil => exact ⟨fun _ => ⟨rfl, rfl⟩, fun h => by simp [removeTextList] at h⟩
  | cons c rest =>
      cases c with
      | text s =>
          have hr := removeTextList_spec rest tok
          by_cases hs : (s == tok) = true
          · refine ⟨fun h => ?_, fun _ => ?_⟩
            · rw [removeTextList_cons_text, if_pos hs] at h
              simp at h
            · rw [removeTextList_cons_text, if_pos hs,
                countTextList_cons_text, if_pos hs]
              show countTextList rest tok + 1 = 1 + countTextList rest tok
              omega
          · refine ⟨fun h => ?_, fun h => ?_⟩
            · rw [removeTextList_cons_text, if_neg hs] at h
              obtain ⟨h1, h2⟩ := hr.1 h
              rw [removeTextList_cons_text, if_neg hs,
                countTextList_cons_text, if_neg hs]
              refine ⟨?_, by omega⟩
              show NodeList.cons (Node.text s) (removeTextList rest tok).1
                = NodeList.cons (Node.text s) rest
              rw [h1]
            · rw [removeTextList_cons_text, if_neg hs] at h
              have h2 := hr.2 h
              rw [removeTextList_cons_text, if_neg hs,
                countTextList_cons_text, if_neg hs,
                countTextList_cons_text, if_neg hs]
              omega
      | elem i cs =>
          have hn := removeTextNode_spec (.elem i cs) tok
          have hr := removeTextList_spec rest tok
          by_cases he : (removeTextNode (.elem i cs) tok).2 = true
          · refine ⟨fun h => ?_, fun _ => ?_⟩
            · rw [removeTextList_cons_elem, if_pos he] at h
              simp at h
            · rw [removeTextList_cons_elem, if_pos he]
              have h2 : countTextList (removeTextList cs tok).1 tok + 1
                  = countTextList cs tok := hn.2 he
              conv_rhs => rw [countTextList_cons_elem]
              rw [removeTextNode_elem, countTextList_cons_elem]
              omega
          · have he2 : (removeTextNode (.elem i cs) tok).2 = false := by
              revert he
              cases (removeTextNode (Node.elem i cs) tok).2 <;> simp
            have h4 : countTextList cs tok = 0 := (hn.1 he2).2
            refine ⟨fun h => ?_, fun h => ?_⟩
            · rw [removeTextList_cons_elem, if_neg he] at h
              obtain ⟨h1, h2⟩ := hr.1 h
              rw [removeTextList_cons_elem, if_neg he,
                countTextList_cons_elem]
              refine ⟨?_, by omega⟩
              show NodeList.cons (Node.elem i cs) (removeTextList rest tok).1
                = NodeList.cons (Node.elem i cs) rest
              rw [h1]
            · rw [removeTextList_cons_elem, if_neg he] at h
              have h2 := hr.2 h
              rw [removeTextList_cons_elem, if_neg he]
              conv_rhs => rw [countTextList_cons_elem]
              rw [countTextList_cons_elem]
              omega
end

/-! ### Claim theorems -/

/-- C1 (counterexample): an `EmotionRecord` whose seven emotion values are
present and all zero is rendered by `create_emotion_charts_html` as an SVG
chart, not as the "no data" placeholder the claim asserts. -/
theorem allzero_record_renders_chart :
    (emotion_values allZeroDict).map Prod.snd = [0, 0, 0, 0, 0, 0, 0] ∧
    create_emotion_charts_html allZeroDict
      = AbsOut.svg (absChartData allZeroDict) ∧
    create_emotion_charts_html allZeroDict ≠
      AbsOut.placeholder "Görselleştirilecek duygu verisi bulunamadı." := by
  have h2 : emotion_values allZeroDict ≠ [] := by decide
  have h3 : create_emotion_charts_html allZeroDict
      = AbsOut.svg (absChartData allZeroDict) := by
    unfold create_emotion_charts_html
    rw [if_neg h2]
  refine ⟨by decide, h3, ?_⟩
  rw [h3]
  intro hcontra
  exact AbsOut.noConfusion hcontra

/-- C1 (amended): when none of the seven emotion keys is present,
`create_emotion_charts_html` returns the "no data" placeholder; when the
present values are all zero it returns a chart all of whose bars have zero
height; in both cases it is a total function and never raises. -/
theorem abs_chart_no_data_behavior (d : EmotionDict) :
    ((∀ k ∈ emotion_keys_ordered, d k = none) →
      create_emotion_charts_html d =
        AbsOut.placeholder "Görselleştirilecek duygu verisi bulunamadı.") ∧
    ((∀ k ∈ emotion_keys_ordered, d k ≠ none → d k = some 0) →
      ∀ b ∈ (absChartData d).bars, b.height = 0) := by
  constructor
  · intro h
    have hp : present_keys d = [] := by
      unfold present_keys
      rw [List.filter_eq_nil_iff]
      intro k hk
      simp [h k hk]
    have he : emotion_values d = [] := by
      unfold emotion_values
      rw [hp]
      rfl
    unfold create_emotion_charts_html
    rw [if_pos he]
  · intro h b hb
    rw [absChartData_bars] at hb
    obtain ⟨j, p, hp, rfl⟩ := mem_absBarsFrom hb
    obtain ⟨k, hk, hpk⟩ := List.mem_map.mp hp
    have hk2 := List.mem_filter.mp hk
    have hne : d k ≠ none := by
      intro h0
      rw [h0] at hk2
      simp at hk2
    have h0 := h k hk2.1 hne
    have hp2 : p.2 = 0 := by
      rw [← hpk]
      show ((d k).getD 0 : ℚ) = 0
      rw [h0]
      rfl
    show (mkAbsBar _ _ _ j p).height = 0
    simp [mkAbsBar, hp2]

/-- C1 witness: the empty record yields the placeholder. -/
theorem abs_chart_no_data_behavior_witness :
    create_emotion_charts_html allNoneDict
      = AbsOut.placeholder "Görselleştirilecek duygu verisi bulunamadı." :=
  (abs_chart_no_data_behavior allNoneDict).1 (by decide)

/-- C2 (code bug): a CSV containing exactly the 15 validated columns but no
cohort-average column passes the required-column validation and then fails
with the generic internal error (the `row[avg_*]` KeyError is caught by the
blanket handler), not with the missing-required-fields validation error;
`avg_llm_skoru` is read by the endpoint yet absent from `required_columns`. -/
theorem missing_avg_columns_internal_error :
    generate_report_model true required_columns 1 = ApiOutcome.internalError ∧
    generate_report_model true accessed_columns 1 = ApiOutcome.success ∧
    "avg_llm_skoru" ∈ accessed_columns ∧ "avg_llm_skoru" ∉ required_columns := by
  refine ⟨by decide, by decide, by decide, by decide⟩

/-- C3: with at least one emotion key present, the absolute chart's scale is
`max 5 (max of present values)`; every bar's height is `value / effectiveMax`
times the drawing height `svg_height − 2·padding`; when all present values
are below 5 the scale is exactly 5. -/
theorem abs_chart_scale (d : EmotionDict) (h : emotion_values d ≠ []) :
    create_emotion_charts_html d = AbsOut.svg (absChartData d) ∧
    abs_max_value d = max 5 (pyMax ((emotion_values d).map Prod.snd)) ∧
    ((∀ v ∈ (emotion_values d).map Prod.snd, v < 5) → abs_max_value d = 5) ∧
    ∀ b ∈ (absChartData d).bars,
      b.height = b.value / abs_max_value d * ((abs_svg_height d : ℚ) - 2 * 40) := by
  refine ⟨?_, ?_, ?_, ?_⟩
  · unfold create_emotion_charts_html
    rw [if_neg h]
  · unfold abs_max_value
    exact floor_five_eq_max _
  · intro hv
    unfold abs_max_value
    rw [if_pos (pyMax_lt (fun hmap => h (List.map_eq_nil_iff.mp hmap)) hv)]
  · intro b hb
    rw [absChartData_bars] at hb
    obtain ⟨j, p, hp, rfl⟩ := mem_absBarsFrom hb
    rfl

/-- C3 witness: all values 2 (< 5) force the scale to 5. -/
theorem abs_chart_scale_witness : abs_max_value lowDict = 5 :=
  (abs_chart_scale lowDict (by decide)).2.2.1 (by decide)

/-- C4: the differential chart's plotted values are
`round(value − average, 2)` per canonical key, its scale is
`max 5 (max |diff|)`, and when every value equals its average all bars have
zero height. -/
theorem diff_chart_diffs_spec (d : EmotionDict) :
    diffs d = diff_pairs.map
      (fun p => (labels_map p.1, round2 ((d p.1).getD 0 - (d p.2).getD 0))) ∧
    max_abs d = max 5 (pyMax ((diffs d).map (fun p => |p.2|))) ∧
    ((∀ p ∈ diff_pairs, (d p.1).getD 0 = (d p.2).getD 0) →
      ∀ b ∈ (diffChartData d).bars, b.height = 0) := by
  refine ⟨rfl, ?_, ?_⟩
  · unfold max_abs
    exact floor_five_eq_max _
  · intro he b hb
    rw [diffChartData_bars] at hb
    obtain ⟨j, p, hp, rfl⟩ := mem_diffBarsFrom hb
    obtain ⟨q, hq, hqp⟩ := List.mem_map.mp hp
    have hz : ((d q.1).getD 0 : ℚ) - (d q.2).getD 0 = 0 := by
      rw [he q hq]
      exact sub_self _
    have hp2 : p.2 = 0 := by
      rw [← hqp]
      show round2 ((d q.1).getD 0 - (d q.2).getD 0) = 0
      rw [hz, round2_zero]
    show (mkDiffBar _ _ _ _ j p).height = 0
    simp [mkDiffBar, hp2]

/-- C4 witness: with values equal to averages everywhere, every bar of the
differential chart has zero height. -/
theorem diff_chart_diffs_spec_witness :
    ((diffChartData equalDict).bars.all fun b => decide (b.height = 0)) = true := by
  have h := (diff_chart_diffs_spec equalDict).2.2 (by decide)
  rw [List.all_eq_true]
  intro b hb
  rw [decide_eq_true_eq]
  exact h b hb

/-- C5: the absolute chart renders exactly one bar per canonical key present,
the bars carry the canonical labels in canonical order, their x positions
are strictly increasing left-to-right, and every bar's color comes from the
fixed label→color table. -/
theorem abs_chart_bars_canonical (d : EmotionDict) (h : emotion_values d ≠ []) :
    create_emotion_charts_html d = AbsOut.svg (absChartData d) ∧
    (absChartData d).bars.length = (present_keys d).length ∧
    (absChartData d).bars.map AbsBar.name = (present_keys d).map labels_map ∧
    List.Pairwise (fun a b => a.x < b.x) (absChartData d).bars ∧
    ∀ b ∈ (absChartData d).bars, colorsTable b.name = some b.color := by
  refine ⟨?_, ?_, ?_, ?_, ?_⟩
  · unfold create_emotion_charts_html
    rw [if_neg h]
  · rw [absChartData_bars, absBarsFrom_length]
    unfold emotion_values
    rw [List.length_map]
  · rw [absChartData_bars, absBarsFrom_map_name]
    unfold emotion_values
    rw [List.map_map]
    rfl
  · rw [absChartData_bars]
    apply pairwise_x_absBarsFrom
    have := abs_bar_width_pos (emotion_values d).length
    linarith
  · intro b hb
    rw [absChartData_bars] at hb
    obtain ⟨j, p, hp, rfl⟩ := mem_absBarsFrom hb
    obtain ⟨k, hk, hpk⟩ := List.mem_map.mp hp
    have hk1 : k ∈ emotion_keys_ordered := (List.mem_filter.mp hk).1
    show colorsTable p.1 = some ((colorsTable p.1).getD "#cccccc")
    rw [← hpk]
    show colorsTable (labels_map k)
      = some ((colorsTable (labels_map k)).getD "#cccccc")
    fin_cases hk1 <;> rfl

/-- C5 witness at a record with all seven keys present. -/
theorem abs_chart_bars_canonical_witness :
    (absChartData fullDict).bars.length = (present_keys fullDict).length :=
  (abs_chart_bars_canonical fullDict (by decide)).2.1

/-- C6: both chart renderers are deterministic — identical input dicts
produce identical rendered output (the embedded renderers are pure functions
of the input; the source has no randomness, clock or locale dependence). -/
theorem renderers_deterministic (d₁ d₂ : EmotionDict) (h : d₁ = d₂) :
    create_emotion_charts_html d₁ = create_emotion_charts_html d₂ ∧
    create_emotion_charts_html_2 d₁ = create_emotion_charts_html_2 d₂ := by
  subst h
  exact ⟨rfl, rfl⟩

/-- C6 witness. -/
theorem renderers_deterministic_witness :
    create_emotion_charts_html fullDict = create_emotion_charts_html fullDict ∧
    create_emotion_charts_html_2 fullDict = create_emotion_charts_html_2 fullDict :=
  renderers_deterministic fullDict fullDict rfl

/-- C7: when the document contains the `bar-chart-placeholder` insertion
point, its prior content is replaced by the absolute chart fragment followed
by the differential chart fragment, in that order; when it is absent,
assembly leaves the document unchanged. -/
theorem insert_charts_spec (doc absFrag diffFrag : Node) :
    (hasId doc barChartPlaceholderId = true →
      getChildrenById (insertCharts doc absFrag diffFrag) barChartPlaceholderId
        = some (NodeList.cons absFrag (NodeList.cons diffFrag NodeList.nil))) ∧
    (hasId doc barChartPlaceholderId = false →
      insertCharts doc absFrag diffFrag = doc) := by
  constructor
  · intro h
    unfold insertCharts
    rw [if_pos h]
    exact getChildrenById_setChildrenById doc barChartPlaceholderId _ h
  · intro h
    unfold insertCharts
    rw [if_neg (by simp [h])]

/-- C7 witness on a concrete document containing the insertion point. -/
theorem insert_charts_spec_witness :
    getChildrenById
        (insertCharts sampleDoc (Node.text "ABS") (Node.text "DIFF"))
        barChartPlaceholderId
      = some (NodeList.cons (Node.text "ABS")
          (NodeList.cons (Node.text "DIFF") NodeList.nil)) :=
  (insert_charts_spec sampleDoc (Node.text "ABS") (Node.text "DIFF")).1 (by decide)

/-- C8: classification flag 1 removes the literal suitability-section
placeholder token (its unique occurrence) from the output document; flag 0
leaves the document untouched by this step. -/
theorem suitability_removal_spec (doc : Node) :
    suitStep 0 doc = doc ∧
    (countText doc suitabilityToken = 0 → suitStep 1 doc = doc) ∧
    (countText doc suitabilityToken = 1 →
      countText (suitStep 1 doc) suitabilityToken = 0) := by
  refine ⟨?_, ?_, ?_⟩
  · unfold suitStep
    rw [if_neg (by decide)]
  · intro h
    unfold suitStep
    rw [if_pos rfl]
    cases hb : (removeTextNode doc suitabilityToken).2 with
    | false => exact ((removeTextNode_spec doc suitabilityToken).1 hb).1
    | true =>
        have h2 := (removeTextNode_spec doc suitabilityToken).2 hb
        omega
  · intro h
    unfold suitStep
    rw [if_pos rfl]
    cases hb : (removeTextNode doc suitabilityToken).2 with
    | false =>
        have h2 := ((removeTextNode_spec doc suitabilityToken).1 hb).2
        omega
    | true =>
        have h2 := (removeTextNode_spec doc suitabilityToken).2 hb
        omega

/-- C8 witness on a concrete document holding the token once. -/
theorem suitability_removal_spec_witness :
    countText (suitStep 1 sampleDoc) suitabilityToken = 0 :=
  (suitability_removal_spec sampleDoc).2.2 (by decide)

/-- C9: the differential chart draws exactly three reference lines, at
−maxAbs, 0 and +maxAbs; each bar extends upward from the baseline when its
diff is ≥ 0 and downward when it is < 0, with height `|diff|/maxAbs · panel`;
the value label carries an explicit sign and sits above the bar for
nonnegative diffs and below it for negative diffs. -/
theorem diff_chart_geometry (d : EmotionDict) :
    (diffChartData d).gridlines =
      [(-(max_abs d), diff_baseline d + diff_panel d),
       (0, diff_baseline d),
       (max_abs d, diff_baseline d - diff_panel d)] ∧
    ∀ b ∈ (diffChartData d).bars,
      b.height = |b.value| / max_abs d * diff_panel d ∧
      (0 ≤ b.value →
        b.y = diff_baseline d - b.height ∧ b.sign = "+" ∧ b.txtY < b.y) ∧
      (b.value < 0 →
        b.y = diff_baseline d ∧ b.sign = "-" ∧ b.y + b.height < b.txtY) := by
  have hm5 := max_abs_ge_five d
  have hm : max_abs d ≠ 0 := by linarith
  constructor
  · show diffGridlines d = _
    unfold diffGridlines
    simp only [List.map_cons, List.map_nil]
    have e1 : diff_baseline d - -(max_abs d) / max_abs d * diff_panel d
        = diff_baseline d + diff_panel d := by
      rw [neg_div, div_self hm]
      ring
    have e2 : diff_baseline d - 0 / max_abs d * diff_panel d
        = diff_baseline d := by
      rw [zero_div]
      ring
    have e3 : diff_baseline d - max_abs d / max_abs d * diff_panel d
        = diff_baseline d - diff_panel d := by
      rw [div_self hm]
      ring
    rw [e1, e2, e3]
  · intro b hb
    rw [diffChartData_bars] at hb
    obtain ⟨j, p, hp, rfl⟩ := mem_diffBarsFrom hb
    refine ⟨rfl, fun hv => ?_, fun hv => ?_⟩
    · have hv' : (0 : ℚ) ≤ p.2 := hv
      simp only [mkDiffBar, if_pos hv']
      refine ⟨trivial, trivial, by linarith⟩
    · have hv' : ¬ (0 : ℚ) ≤ p.2 := not_le.mpr hv
      simp only [mkDiffBar, if_neg hv']
      refine ⟨trivial, trivial, by linarith⟩

/-- C9 witness: the three gridlines at a concrete record. -/
theorem diff_chart_geometry_witness :
    (diffChartData fullDict).gridlines =
      [(-(max_abs fullDict), diff_baseline fullDict + diff_panel fullDict),
       (0, diff_baseline fullDict),
       (max_abs fullDict, diff_baseline fullDict - diff_panel fullDict)] :=
  (diff_chart_geometry fullDict).1

/-- C10: the differential renderer always yields exactly seven bars (every
canonical key and its average default to 0 when absent), so its "no data"
branch is unreachable — while the absolute renderer, which skips absent
keys, returns the placeholder on the empty record. -/
theorem diff_chart_always_seven_bars (d : EmotionDict) :
    (diffs d).length = 7 ∧
    create_emotion_charts_html_2 d = DiffOut.svg (diffChartData d) ∧
    (diffChartData d).bars.length = 7 ∧
    create_emotion_charts_html allNoneDict
      = AbsOut.placeholder "Görselleştirilecek duygu verisi bulunamadı." := by
  have hlen : (diffs d).length = 7 := by
    unfold diffs
    rw [List.length_map]
    rfl
  have hne : diffs d ≠ [] := by
    intro h0
    rw [h0] at hlen
    simp at hlen
  refine ⟨hlen, ?_, ?_, ?_⟩
  · unfold create_emotion_charts_html_2
    rw [if_neg hne]
  · rw [diffChartData_bars, diffBarsFrom_length, hlen]
  · have h0 : emotion_values allNoneDict = [] := by decide
    unfold create_emotion_charts_html
    rw [if_pos h0]

/-- C10 witness. -/
theorem diff_chart_always_seven_bars_witness :
    (diffs allZeroDict).length = 7 :=
  (diff_chart_always_seven_bars allZeroDict).1

end Rapor
